import Mathlib

/-!
Shallow embedding of the `libhueble` Lamp session (`src/__init__.py`).

The Python class mirrors a Philips Hue BLE lamp's state (model, power,
brightness, color) and exposes change-suppressing setters that write GATT
characteristics.  We model the cached mirror as a record of `Option` fields
(`none` = Python `None`, i.e. not yet populated), transport writes as an
explicit trace, and write failures through an oracle of success flags that
is consumed one flag per attempted acknowledged write (an empty oracle means
every write succeeds).  Python's `round` is banker's rounding
(round-half-to-even), modelled on `ℚ` by `pyRound`.
-/

namespace Hueble

/-- Python `round`: round half to even, on rationals.  `Rat.floor` is used
rather than `⌊·⌋` so that concrete instances kernel-reduce. -/
def pyRound (q : ℚ) : ℤ :=
  let f := q.floor
  let r := q - (f : ℚ)
  if r < 1/2 then f
  else if 1/2 < r then f + 1
  else if f % 2 = 0 then f else f + 1

/-- The five GATT characteristics of the wire contract (`ALL_CHARS`). -/
inductive GChar where
  | model
  | power
  | brightness
  | temperature
  | color
deriving DecidableEq, BEq, Repr

/-- The lamp session's cached mirror: `self.__model`, `self.__power`,
`self.__brightness`, `self.__color`.  `none` is Python `None`. -/
structure LampState where
  model : Option (List ℕ)
  power : Option Bool
  brightness : Option ℕ
  color : Option (ℕ × ℕ)
deriving DecidableEq, Repr

/-- The mirror right after `Lamp.__init__`: every cached field is `None`. -/
def initLampState : LampState := ⟨none, none, none, none⟩

/-- One acknowledged GATT write: characteristic plus payload bytes. -/
structure WriteOp where
  char : GChar
  data : List ℕ
deriving DecidableEq, Repr

/-- Outcome of running a setter: the mirror afterwards, the remaining write
oracle, the writes issued on the transport (in order), and whether an
exception propagated out of a failed write. -/
structure SetResult where
  state : LampState
  oracle : List Bool
  writes : List WriteOp
  faulted : Bool
deriving DecidableEq, Repr

/-- Pop the next write outcome off the oracle; an exhausted oracle means
the write succeeds. -/
def popOracle : List Bool → Bool × List Bool
  | [] => (true, [])
  | b :: rest => (b, rest)

/-- Model of `Lamp.set_power` (lines 140-144): suppress the write when the cached
power already equals `on`; otherwise write the one-byte sentinel with
acknowledgment and only then update the cache. -/
def set_power (s : LampState) (o : List Bool) (b : Bool) : SetResult :=
  if s.power = some b then ⟨s, o, [], false⟩
  else
    let p := popOracle o
    let w : WriteOp := ⟨GChar.power, [if b then 1 else 0]⟩
    if p.1 then ⟨{ s with power := some b }, p.2, [w], false⟩
    else ⟨s, p.2, [w], true⟩

/-- Model of `Lamp.set_brightness` (lines 149-159): quantize with `round(value*0xFE)`;
a quantized 0 delegates to `set_power(False)`; otherwise write the byte if it
differs from the cache, then finish with `set_power(True)`. -/
def set_brightness (s : LampState) (o : List Bool) (v : ℚ) : SetResult :=
  let hv := (pyRound (v * 254)).toNat
  if hv = 0 then set_power s o false
  else if some hv ≠ s.brightness then
    let p := popOracle o
    let w : WriteOp := ⟨GChar.brightness, [hv]⟩
    if p.1 then
      let r := set_power { s with brightness := some hv } p.2 true
      ⟨r.state, r.oracle, w :: r.writes, r.faulted⟩
    else ⟨s, p.2, [w], true⟩
  else set_power s o true

/-- Model of `Lamp.set_color` (lines 164-170): quantize both axes with
`round(c*0xFFFF)`, suppress when the quantized pair equals the cache,
otherwise write both coordinates as one 4-byte little-endian payload. -/
def set_color (s : LampState) (o : List Bool) (c : ℚ × ℚ) : SetResult :=
  let x := (pyRound (c.1 * 65535)).toNat
  let y := (pyRound (c.2 * 65535)).toNat
  if s.color = some (x, y) then ⟨s, o, [], false⟩
  else
    let p := popOracle o
    let w : WriteOp := ⟨GChar.color, [x % 256, x / 256, y % 256, y / 256]⟩
    if p.1 then ⟨{ s with color := some (x, y) }, p.2, [w], false⟩
    else ⟨s, p.2, [w], true⟩

/-- Result of a Python attribute getter: the `None` sentinel, a value, or a
raised exception (`TypeError` on `None` arithmetic / subscription). -/
inductive GetResult (α : Type) where
  | unknown
  | value (v : α)
  | fault
deriving DecidableEq, Repr

/-- Model of `Lamp.get_power` (lines 137-138): returns the cached field as is
(`None` before bootstrap). -/
def get_power (s : LampState) : GetResult Bool :=
  match s.power with
  | none => GetResult.unknown
  | some b => GetResult.value b

/-- Model of `Lamp.get_brightness` (lines 146-147): `self.__brightness / 0xFE`;
on a `None` cache the division raises `TypeError`. -/
def get_brightness (s : LampState) : GetResult ℚ :=
  match s.brightness with
  | none => GetResult.fault
  | some b => GetResult.value ((b : ℚ) / 254)

/-- Model of `Lamp.get_color` (lines 161-162):
`round(self.__color[0] * 0xFFFF), round(self.__color[1] * 0xFFFF)`;
on a `None` cache the subscription raises `TypeError`. -/
def get_color (s : LampState) : GetResult (ℤ × ℤ) :=
  match s.color with
  | none => GetResult.fault
  | some xy => GetResult.value (pyRound ((xy.1 : ℚ) * 65535), pyRound ((xy.2 : ℚ) * 65535))

/-- Model of `power_callback` (lines 96-102): `assert data in [b'\x00', b'\x01']`,
then store the decoded boolean.  The second component is `false` when the
assertion raised, in which case the mirror is returned untouched (the
assignment is never reached). -/
def applyPower (data : List ℕ) (s : LampState) : LampState × Bool :=
  if data = [0] ∨ data = [1] then
    if data = [1] then ({ s with power := some true }, true)
    else ({ s with power := some false }, true)
  else (s, false)

/-- Model of `brightness_callback` (lines 109-112): `assert len(data) == 1`, then
store the raw byte. -/
def applyBrightness (data : List ℕ) (s : LampState) : LampState × Bool :=
  match data with
  | [b] => ({ s with brightness := some b }, true)
  | _ => (s, false)

/-- Model of `color_callback` (lines 119-122): `assert len(data) == 4`, then store
`unpack('<HH', data)`, i.e. two little-endian 16-bit unsigned integers. -/
def applyColor (data : List ℕ) (s : LampState) : LampState × Bool :=
  match data with
  | [b0, b1, b2, b3] => ({ s with color := some (b0 + 256 * b1, b2 + 256 * b3) }, true)
  | _ => (s, false)

/-- Model of `model_bytes.decode('ascii')` (line 86): fails unless every byte is
below 128. -/
def decodeAscii (data : List ℕ) : Option (List ℕ) :=
  if data.all (· < 128) then some data else none

/-- The transport operations `Lamp.connect` can issue, in the order they
appear in the source. -/
inductive Op where
  | connectOp
  | readChar (c : GChar)
  | startNotify (c : GChar)
  | writeChar (c : GChar) (data : List ℕ)
deriving DecidableEq, BEq, Repr

/-- The exact sequence of transport operations issued by `Lamp.connect`
(lines 76-126) on the success path. -/
def connectTrace : List Op :=
  [Op.connectOp,
   Op.readChar GChar.model,
   Op.startNotify GChar.power, Op.readChar GChar.power,
   Op.startNotify GChar.brightness, Op.readChar GChar.brightness,
   Op.startNotify GChar.color, Op.readChar GChar.color]

/-- Model of `Lamp.connect` (lines 76-126) as a mirror transformer: `reads` gives
the payload the device returns for each characteristic's initial read; each
read result is applied through the same callback that handles notifications;
any decode fault aborts the bootstrap (`none`). -/
def connectModel (reads : GChar → List ℕ) (s : LampState) : Option LampState :=
  match decodeAscii (reads GChar.model) with
  | none => none
  | some m =>
    let s1 := { s with model := some m }
    match applyPower (reads GChar.power) s1 with
    | (_, false) => none
    | (s2, true) =>
      match applyBrightness (reads GChar.brightness) s2 with
      | (_, false) => none
      | (s3, true) =>
        match applyColor (reads GChar.color) s3 with
        | (_, false) => none
        | (s4, true) => some s4

/-- The raw temperature code computed by `Lamp.set_temperature`
(lines 177-181): `max(t, 0)`, then `min(int(round(t*301)) + 153, 454)`. -/
def tempCode (t : ℚ) : ℤ :=
  let t1 := max t 0
  min (pyRound (t1 * 301) + 153) 454

/-- Model of `Lamp.set_temperature` (lines 177-181): no cache, one acknowledged
2-byte little-endian write `bytes([code & 0xFF, code >> 8])`. -/
def set_temperature (s : LampState) (o : List Bool) (t : ℚ) : SetResult :=
  let code := (tempCode t).toNat
  let p := popOracle o
  let w : WriteOp := ⟨GChar.temperature, [code % 256, code / 256]⟩
  if p.1 then ⟨s, p.2, [w], false⟩ else ⟨s, p.2, [w], true⟩

/-- The constructor argument `address_or_ble_device`: either a bare address
string or a resolved `BLEDevice` carrying an address and an advertised name
(which may be `None`). -/
inductive AddressOrDevice where
  | address (a : String)
  | device (a : String) (devName : Option String)
deriving DecidableEq, Repr

/-- The identity attributes set by `Lamp.__init__` (lines 53-63).
`nameAttr = none` means the `self.name` attribute was never assigned, so
reading `.name` raises `AttributeError`; `nameAttr = some n` means
`self.name` was assigned the (possibly `None`) value `n`. -/
structure LampIdent where
  address : String
  nameAttr : Option (Option String)
deriving DecidableEq, Repr

/-- Model of `Lamp.__init__` (lines 53-63): `self.name` is assigned only when the
`name` argument is `None` AND a resolved device was passed (line 62:
`if name is None and isinstance(address_or_ble_device, BLEDevice)`). -/
def lampInit (aod : AddressOrDevice) (name : Option String) : LampIdent :=
  let addr := match aod with
    | AddressOrDevice.address a => a
    | AddressOrDevice.device a _ => a
  match name, aod with
  | none, AddressOrDevice.device _ dn => ⟨addr, some dn⟩
  | _, _ => ⟨addr, none⟩

/-- Model of `Lamp.discover` (line 51) wraps each confirmed device as
`cls(lamp, lamp.name)`: the resolved device plus its advertised name passed
as the explicit `name` argument. -/
def discoverWrap (addr : String) (advName : Option String) : LampIdent :=
  lampInit (AddressOrDevice.device addr advName) advName

/-- The method and property names defined on the `Lamp` class
(`src/__init__.py`). -/
def lampMethodNames : List String :=
  ["discover", "__init__", "is_connected", "connect", "disconnect", "model",
   "get_power", "set_power", "get_brightness", "set_brightness", "get_color",
   "set_color", "get_temperature", "set_temperature", "get_color_rgb",
   "set_color_rgb", "__repr__"]

/-- The attribute name looked up by `Lamp.get_color_rgb` (line 185:
`await self.get_color_xy()`). -/
def getColorRgbCallee : String := "get_color_xy"

/-- The attribute name looked up by `Lamp.set_color_rgb` (line 191:
`await self.set_color_xy(x, y)`). -/
def setColorRgbCallee : String := "set_color_xy"

/-- Statement that the cached mirror field backing characteristic `c` is
the same in `s'` as in `s`. -/
def attrUnchanged (c : GChar) (s s' : LampState) : Prop :=
  match c with
  | GChar.model => s'.model = s.model
  | GChar.power => s'.power = s.power
  | GChar.brightness => s'.brightness = s.brightness
  | GChar.temperature => True
  | GChar.color => s'.color = s.color

/-- Concrete fixture: a fully bootstrapped mirror with power off and
brightness 127. -/
def mirrorOff127 : LampState := ⟨some [72], some false, some 127, some (3, 4)⟩

/-- Concrete fixture: a fully bootstrapped mirror with power on and
brightness 200. -/
def mirrorOn200 : LampState := ⟨some [72], some true, some 200, some (5, 6)⟩

/-- Concrete fixture: device read payloads for a bootstrap. -/
def readsSample : GChar → List ℕ := fun c =>
  match c with
  | GChar.model => [72]
  | GChar.power => [1]
  | GChar.brightness => [42]
  | GChar.temperature => []
  | GChar.color => [16, 0, 32, 0]

/-! ### Basic facts about `pyRound` -/

theorem ratFloor_eq_floor (q : ℚ) : q.floor = ⌊q⌋ := by
  rw [Rat.floor_def', Rat.floor_def]

theorem pyRound_eq_floor_cases (q : ℚ) :
    pyRound q =
      if q - (⌊q⌋ : ℚ) < 1/2 then ⌊q⌋
      else if 1/2 < q - (⌊q⌋ : ℚ) then ⌊q⌋ + 1
      else if ⌊q⌋ % 2 = 0 then ⌊q⌋ else ⌊q⌋ + 1 := by
  simp only [pyRound, ratFloor_eq_floor]

theorem pyRound_of_lt_half {q : ℚ} {z : ℤ} (h1 : (z : ℚ) ≤ q)
    (h2 : q < (z : ℚ) + 1/2) : pyRound q = z := by
  have hf : ⌊q⌋ = z := Int.floor_eq_iff.mpr ⟨h1, by linarith⟩
  rw [pyRound_eq_floor_cases, hf, if_pos (by linarith)]

theorem pyRound_of_gt_half {q : ℚ} {z : ℤ} (h1 : (z : ℚ) + 1/2 < q)
    (h2 : q < (z : ℚ) + 1) : pyRound q = z + 1 := by
  have hf : ⌊q⌋ = z := Int.floor_eq_iff.mpr ⟨by linarith, by linarith⟩
  rw [pyRound_eq_floor_cases, hf, if_neg (by linarith), if_pos (by linarith)]

theorem pyRound_half (z : ℤ) :
    pyRound ((z : ℚ) + 1/2) = if z % 2 = 0 then z else z + 1 := by
  have hf : ⌊(z : ℚ) + 1/2⌋ = z := Int.floor_eq_iff.mpr ⟨by linarith, by norm_num⟩
  rw [pyRound_eq_floor_cases, hf, if_neg (by norm_num), if_neg (by norm_num)]

theorem pyRound_intCast (z : ℤ) : pyRound (z : ℚ) = z :=
  pyRound_of_lt_half le_rfl (by norm_num)

theorem pyRound_eq_floor_or_succ (q : ℚ) :
    pyRound q = ⌊q⌋ ∨ pyRound q = ⌊q⌋ + 1 := by
  rw [pyRound_eq_floor_cases]
  split
  · exact Or.inl rfl
  · split
    · exact Or.inr rfl
    · split
      · exact Or.inl rfl
      · exact Or.inr rfl

theorem floor_le_pyRound (q : ℚ) : ⌊q⌋ ≤ pyRound q := by
  rcases pyRound_eq_floor_or_succ q with h | h <;> omega

theorem pyRound_nonneg {q : ℚ} (h : 0 ≤ q) : 0 ≤ pyRound q := by
  have := floor_le_pyRound q
  have := Int.floor_nonneg.mpr h
  omega

/-! ### Claim C5: power decode fault -/

/-- C5: a power notification or initial-read payload that is not exactly the
single byte `0x00` or `0x01` makes the decode path raise (the `assert`
fails), and the previously cached power value is left unchanged. -/
theorem power_decode_fault (s : LampState) (data : List ℕ)
    (h0 : data ≠ [0]) (h1 : data ≠ [1]) :
    (applyPower data s).2 = false ∧ (applyPower data s).1.power = s.power := by
  unfold applyPower
  rw [if_neg (by tauto)]
  exact ⟨rfl, rfl⟩

/-- Witness for C5 at the two-byte payload `0x00 0x01` on a mirror whose
cached power is `True`. -/
theorem power_decode_fault_witness :
    ([0, 1] : List ℕ) ≠ [0] ∧ ([0, 1] : List ℕ) ≠ [1] ∧
    (applyPower [0, 1] mirrorOn200).2 = false ∧
    (applyPower [0, 1] mirrorOn200).1.power = some true :=
  ⟨by decide, by decide,
   (power_decode_fault mirrorOn200 [0, 1] (by decide) (by decide)).1,
   (power_decode_fault mirrorOn200 [0, 1] (by decide) (by decide)).2⟩

/-! ### Claim C6: pre-bootstrap attribute access -/

/-- C6 counterexample: on a freshly constructed session (all mirrored fields
`None`), `get_brightness` does not observe the unknown sentinel — the
division `None / 0xFE` raises a `TypeError`. -/
theorem pre_bootstrap_brightness_not_unknown :
    get_brightness initLampState ≠ GetResult.unknown := by decide

/-- C6 amended: before a successful bootstrap, `get_power` returns the
unknown sentinel `None`, while `get_brightness` and `get_color` raise a
`TypeError`; no accessor ever returns a stale or garbage value. -/
theorem pre_bootstrap_access :
    get_power initLampState = GetResult.unknown ∧
    get_brightness initLampState = GetResult.fault ∧
    get_color initLampState = GetResult.fault :=
  ⟨rfl, rfl, rfl⟩

/-! ### Claim C7: RGB accessor composition -/

/-- C7: `get_color_rgb` and `set_color_rgb` look up the attributes
`get_color_xy` / `set_color_xy`, but the class only defines `get_color` /
`set_color`, so both RGB accessors raise `AttributeError` on any session
instead of composing the converter with the xy accessors. -/
theorem color_rgb_callee_missing :
    getColorRgbCallee ∉ lampMethodNames ∧
    setColorRgbCallee ∉ lampMethodNames ∧
    "get_color" ∈ lampMethodNames ∧
    "set_color" ∈ lampMethodNames := by decide

/-! ### Claim C8: discovery result identity -/

/-- C8: `discover` constructs each session as `cls(lamp, lamp.name)`, but
`__init__` only assigns `self.name` when the `name` argument is `None`; with
an explicit non-`None` advertised name the `name` attribute is never set
(reading it raises `AttributeError`), so it does not equal the advertised
name.  Only a `None` advertised name is stored. -/
theorem discover_name_dropped :
    (discoverWrap "AA:BB:CC:DD:EE:FF" (some "Hue Lamp")).nameAttr = none ∧
    (discoverWrap "AA:BB:CC:DD:EE:FF" none).nameAttr = some none := by decide

/-! ### Helper lemmas about `set_power` -/

theorem set_power_writes_cases (s : LampState) (o : List Bool) (b : Bool) :
    (set_power s o b).writes = [] ∨
    (set_power s o b).writes = [⟨GChar.power, [if b then 1 else 0]⟩] := by
  by_cases hp : s.power = some b
  · left
    simp only [set_power]
    rw [if_pos hp]
  · right
    simp only [set_power]
    rw [if_neg hp]
    split <;> rfl

theorem set_power_state_brightness (s : LampState) (o : List Bool) (b : Bool) :
    (set_power s o b).state.brightness = s.brightness := by
  simp only [set_power]
  split
  · rfl
  · split <;> rfl

theorem set_power_nil_eq (s : LampState) (b : Bool) :
    set_power s [] b =
      if s.power = some b then ⟨s, [], [], false⟩
      else ⟨{ s with power := some b }, [], [⟨GChar.power, [if b then 1 else 0]⟩], false⟩ := by
  by_cases hp : s.power = some b
  · simp only [set_power]
    rw [if_pos hp, if_pos hp]
  · simp only [set_power]
    rw [if_neg hp, if_neg hp]
    rfl

theorem set_power_state_power_nil (s : LampState) (b : Bool) :
    (set_power s [] b).state.power = some b := by
  rw [set_power_nil_eq]
  by_cases hp : s.power = some b
  · rw [if_pos hp]
    exact hp
  · rw [if_neg hp]

/-! ### Claim C2: set_brightness postcondition -/

/-- C2: for every normalized `v`, if `round(v*254) = 0` then
`set_brightness` delegates to `set_power(False)`, never writes the
brightness characteristic, and leaves the cached brightness unchanged;
if `round(v*254) ≠ 0` then it ends with cached power `on`, and the possible
write traces show any brightness write precedes the power-on write. -/
theorem set_brightness_spec (s : LampState) (v : ℚ) (h0 : 0 ≤ v) (h1 : v ≤ 1) :
    ((pyRound (v * 254)).toNat = 0 →
      set_brightness s [] v = set_power s [] false ∧
      (∀ w ∈ (set_brightness s [] v).writes, w.char ≠ GChar.brightness) ∧
      (set_brightness s [] v).state.brightness = s.brightness) ∧
    ((pyRound (v * 254)).toNat ≠ 0 →
      (set_brightness s [] v).state.power = some true ∧
      ((set_brightness s [] v).writes = [] ∨
       (set_brightness s [] v).writes = [⟨GChar.power, [1]⟩] ∨
       (set_brightness s [] v).writes = [⟨GChar.brightness, [(pyRound (v * 254)).toNat]⟩] ∨
       (set_brightness s [] v).writes =
         [⟨GChar.brightness, [(pyRound (v * 254)).toNat]⟩, ⟨GChar.power, [1]⟩])) := by
  constructor
  · intro h
    have heq : set_brightness s [] v = set_power s [] false := by
      simp only [set_brightness]
      rw [if_pos h]
    refine ⟨heq, ?_, ?_⟩
    · rw [heq]
      rcases set_power_writes_cases s [] false with hw | hw <;> rw [hw]
      · intro w hw'
        simp at hw'
      · intro w hw'
        simp at hw'
        subst hw'
        decide
    · rw [heq]
      exact set_power_state_brightness s [] false
  · intro h
    have hbody : set_brightness s [] v =
        (if some ((pyRound (v * 254)).toNat) ≠ s.brightness then
          let r := set_power { s with brightness := some ((pyRound (v * 254)).toNat) } [] true
          ⟨r.state, r.oracle, ⟨GChar.brightness, [(pyRound (v * 254)).toNat]⟩ :: r.writes,
            r.faulted⟩
        else set_power s [] true) := by
      simp only [set_brightness]
      rw [if_neg h]
      rfl
    by_cases hc : some ((pyRound (v * 254)).toNat) = s.brightness
    · rw [hbody, if_neg (not_not_intro hc)]
      refine ⟨set_power_state_power_nil s true, ?_⟩
      rcases set_power_writes_cases s [] true with hw | hw <;> rw [hw]
      · exact Or.inl rfl
      · exact Or.inr (Or.inl rfl)
    · rw [hbody, if_pos hc]
      rw [set_power_nil_eq]
      by_cases hp : ({ s with brightness := some ((pyRound (v * 254)).toNat) } :
          LampState).power = some true
      · rw [if_pos hp]
        exact ⟨hp, Or.inr (Or.inr (Or.inl rfl))⟩
      · rw [if_neg hp]
        exact ⟨rfl, Or.inr (Or.inr (Or.inr rfl))⟩

/-- Witness for C2 at `v = 0` (quantized 0, power-off path) and `v = 1`
(quantized 254, brightness write then power-on). -/
theorem set_brightness_spec_witness :
    (pyRound ((0 : ℚ) * 254)).toNat = 0 ∧
    set_brightness mirrorOff127 [] 0 = set_power mirrorOff127 [] false ∧
    (pyRound ((1 : ℚ) * 254)).toNat = 254 ∧
    (set_brightness mirrorOff127 [] 1).state.power = some true := by
  have hz : (pyRound ((0 : ℚ) * 254)).toNat = 0 := by
    have h : ((0 : ℚ) * 254) = ((0 : ℤ) : ℚ) := by norm_num
    rw [h, pyRound_intCast]
    rfl
  have ho : (pyRound ((1 : ℚ) * 254)).toNat = 254 := by
    have h : ((1 : ℚ) * 254) = ((254 : ℤ) : ℚ) := by norm_num
    rw [h, pyRound_intCast]
    rfl
  refine ⟨hz, ?_, ho, ?_⟩
  · exact ((set_brightness_spec mirrorOff127 0 (by norm_num) (by norm_num)).1 hz).1
  · exact ((set_brightness_spec mirrorOff127 1 (by norm_num) (by norm_num)).2 (by omega)).1

/-! ### Claim C3: redundant-write suppression -/

/-- C3 counterexample: with cached power off and cached brightness 127,
`set_brightness(0.5)` quantizes to exactly the cached brightness 127, yet
the setter still issues a transport write (the trailing `set_power(True)`
writes the power characteristic), so "the setter issues no transport write"
is false as stated for `set_brightness`. -/
theorem redundant_write_cex :
    (pyRound ((1 : ℚ)/2 * 254)).toNat = 127 ∧
    mirrorOff127.brightness = some 127 ∧
    (set_brightness mirrorOff127 [] ((1 : ℚ)/2)).writes = [⟨GChar.power, [1]⟩] := by
  have h127 : pyRound ((1 : ℚ)/2 * 254) = 127 := by
    have h : ((1 : ℚ)/2 * 254) = ((127 : ℤ) : ℚ) := by norm_num
    rw [h, pyRound_intCast]
  refine ⟨by rw [h127]; rfl, rfl, ?_⟩
  have hbody : set_brightness mirrorOff127 [] ((1 : ℚ)/2) =
      set_power mirrorOff127 [] true := by
    simp only [set_brightness, h127]
    rfl
  rw [hbody, set_power_nil_eq]
  rfl

/-- C3 amended: the per-characteristic suppression that does hold:
`set_power` and `set_color` issue no write at all when the quantized new
value equals the cache; `set_brightness` with a nonzero quantized value
equal to the cached brightness issues no brightness-characteristic write
(every write it issues is a power write, from the trailing
`set_power(True)`); and two successive `set_power(x)` with the same `x`
issue at most one write in total. -/
theorem redundant_write_suppression :
    (∀ s o b, s.power = some b → (set_power s o b).writes = []) ∧
    (∀ s o c, s.color = some ((pyRound (c.1 * 65535)).toNat, (pyRound (c.2 * 65535)).toNat) →
      (set_color s o c).writes = []) ∧
    (∀ s o v, (pyRound (v * 254)).toNat ≠ 0 →
      s.brightness = some ((pyRound (v * 254)).toNat) →
      ∀ w ∈ (set_brightness s o v).writes, w.char = GChar.power) ∧
    (∀ s b, ((set_power s [] b).writes ++
      (set_power (set_power s [] b).state [] b).writes).length ≤ 1) := by
  refine ⟨?_, ?_, ?_, ?_⟩
  · intro s o b hp
    simp only [set_power]
    rw [if_pos hp]
  · intro s o c hc
    simp only [set_color]
    rw [if_pos hc]
  · intro s o v h hc
    have hbody : set_brightness s o v = set_power s o true := by
      simp only [set_brightness]
      rw [if_neg h, if_neg (not_not_intro hc.symm)]
    rw [hbody]
    rcases set_power_writes_cases s o true with hw | hw <;> rw [hw]
    · intro w hw'
      simp at hw'
    · intro w hw'
      simp at hw'
      subst hw'
      rfl
  · intro s b
    rw [set_power_nil_eq]
    by_cases hp : s.power = some b
    · rw [if_pos hp]
      simp only [List.nil_append]
      rw [set_power_nil_eq, if_pos hp]
      simp
    · rw [if_neg hp]
      have h2 : set_power ({ s with power := some b } : LampState) [] b =
          ⟨{ s with power := some b }, [], [], false⟩ := by
        rw [set_power_nil_eq, if_pos rfl]
      simp [h2]

/-- Witness for C3 amended, applying each conjunct at a concrete mirror:
suppressed `set_power(True)` on an already-on mirror, suppressed `set_color`
on the cached pair, brightness-equal `set_brightness` issuing only power
writes, and the double `set_power` write count. -/
theorem redundant_write_suppression_witness :
    (set_power mirrorOn200 [] true).writes = [] ∧
    (set_color mirrorOn200 [] (5/65535, 6/65535)).writes = [] ∧
    (∀ w ∈ (set_brightness mirrorOff127 [] ((1 : ℚ)/2)).writes, w.char = GChar.power) ∧
    ((set_power mirrorOff127 [] true).writes ++
      (set_power (set_power mirrorOff127 [] true).state [] true).writes).length ≤ 1 := by
  have h127 : pyRound ((1 : ℚ)/2 * 254) = 127 := by
    have h : ((1 : ℚ)/2 * 254) = ((127 : ℤ) : ℚ) := by norm_num
    rw [h, pyRound_intCast]
  have hx : pyRound ((5 : ℚ)/65535 * 65535) = 5 := by
    have h : ((5 : ℚ)/65535 * 65535) = ((5 : ℤ) : ℚ) := by norm_num
    rw [h, pyRound_intCast]
  have hy : pyRound ((6 : ℚ)/65535 * 65535) = 6 := by
    have h : ((6 : ℚ)/65535 * 65535) = ((6 : ℤ) : ℚ) := by norm_num
    rw [h, pyRound_intCast]
  refine ⟨?_, ?_, ?_, ?_⟩
  · exact redundant_write_suppression.1 mirrorOn200 [] true rfl
  · refine redundant_write_suppression.2.1 mirrorOn200 [] (5/65535, 6/65535) ?_
    show mirrorOn200.color = some ((pyRound ((5 : ℚ)/65535 * 65535)).toNat,
      (pyRound ((6 : ℚ)/65535 * 65535)).toNat)
    rw [hx, hy]
    rfl
  · refine redundant_write_suppression.2.2.1 mirrorOff127 [] ((1 : ℚ)/2) ?_ ?_
    · rw [h127]
      decide
    · show mirrorOff127.brightness = some ((pyRound ((1 : ℚ)/2 * 254)).toNat)
      rw [h127]
      rfl
  · exact redundant_write_suppression.2.2.2 mirrorOff127 true

/-! ### Claim C4: setter atomicity on write failure -/

theorem set_power_fault_state (s : LampState) (o : List Bool) (b : Bool)
    (h : (set_power s o b).faulted = true) : (set_power s o b).state = s := by
  revert h
  simp only [set_power]
  split
  · intro h
    exact absurd h (by simp)
  · split
    · intro h
      exact absurd h (by simp)
    · intro _
      rfl

theorem set_power_fault_writes (s : LampState) (o : List Bool) (b : Bool)
    (h : (set_power s o b).faulted = true) :
    (set_power s o b).writes = [⟨GChar.power, [if b then 1 else 0]⟩] := by
  revert h
  simp only [set_power]
  split
  · intro h
    exact absurd h (by simp)
  · split
    · intro h
      exact absurd h (by simp)
    · intro _
      rfl

/-- C4: for each setter, when the acknowledged write raises, the cached
mirror value for the attribute of the failed (last attempted) write is left
unchanged; for `set_power` and `set_color` the entire mirror is untouched. -/
theorem setter_atomic_on_failure :
    (∀ s o b, (set_power s o b).faulted = true → (set_power s o b).state = s) ∧
    (∀ s o c, (set_color s o c).faulted = true → (set_color s o c).state = s) ∧
    (∀ s o v w, (set_brightness s o v).faulted = true →
      (set_brightness s o v).writes.getLast? = some w →
      attrUnchanged w.char s (set_brightness s o v).state) := by
  refine ⟨set_power_fault_state, ?_, ?_⟩
  · intro s o c
    simp only [set_color]
    split
    · intro h
      exact absurd h (by simp)
    · split
      · intro h
        exact absurd h (by simp)
      · intro _
        rfl
  · intro s o v w
    simp only [set_brightness]
    by_cases h0 : (pyRound (v * 254)).toNat = 0
    · rw [if_pos h0]
      intro hf hl
      have hst := set_power_fault_state s o false hf
      rw [set_power_fault_writes s o false hf] at hl
      simp at hl
      subst hl
      rw [hst]
      exact rfl
    · rw [if_neg h0]
      by_cases hc : some ((pyRound (v * 254)).toNat) ≠ s.brightness
      · rw [if_pos hc]
        rcases ho : popOracle o with ⟨ok, rest⟩
        by_cases hok : ok = true
        · subst hok
          simp only [ho]
          rw [if_pos trivial]
          intro hf hl
          have hf' : (set_power { s with brightness := some ((pyRound (v * 254)).toNat) }
              rest true).faulted = true := hf
          have hst := set_power_fault_state _ rest true hf'
          have hw := set_power_fault_writes _ rest true hf'
          have hl' : (WriteOp.mk GChar.brightness [(pyRound (v * 254)).toNat] ::
              (set_power { s with brightness := some ((pyRound (v * 254)).toNat) }
                rest true).writes).getLast? = some w := hl
          rw [hw] at hl'
          simp at hl'
          subst hl'
          show (set_power { s with brightness := some ((pyRound (v * 254)).toNat) }
            rest true).state.power = s.power
          rw [hst]
        · have hok' : ok = false := by
            cases ok
            · rfl
            · exact absurd rfl hok
          subst hok'
          simp only [ho]
          rw [if_neg (by simp)]
          intro _ hl
          simp at hl
          subst hl
          exact rfl
      · rw [if_neg hc]
        intro hf hl
        have hst := set_power_fault_state s o true hf
        rw [set_power_fault_writes s o true hf] at hl
        simp at hl
        subst hl
        rw [hst]
        exact rfl

/-- Witness for C4: a failing `set_power` write (oracle `[false]`) leaves
the mirror untouched, and a `set_brightness(1.0)` whose brightness write
succeeds but whose trailing power write fails (oracle `[true, false]`)
leaves the cached power unchanged. -/
theorem setter_atomic_on_failure_witness :
    (set_power mirrorOff127 [false] true).faulted = true ∧
    (set_power mirrorOff127 [false] true).state = mirrorOff127 ∧
    (set_color mirrorOn200 [false] (0, 0)).faulted = true ∧
    (set_color mirrorOn200 [false] (0, 0)).state = mirrorOn200 ∧
    (set_brightness mirrorOff127 [true, false] 1).faulted = true ∧
    (set_brightness mirrorOff127 [true, false] 1).writes.getLast? =
      some ⟨GChar.power, [1]⟩ ∧
    attrUnchanged GChar.power mirrorOff127
      (set_brightness mirrorOff127 [true, false] 1).state := by
  have h254 : pyRound ((1 : ℚ) * 254) = 254 := by
    have h : ((1 : ℚ) * 254) = ((254 : ℤ) : ℚ) := by norm_num
    rw [h, pyRound_intCast]
  have h0x : (pyRound ((((0 : ℚ), (0 : ℚ)) : ℚ × ℚ).1 * 65535)).toNat = 0 := by
    show (pyRound ((0 : ℚ) * 65535)).toNat = 0
    have h : ((0 : ℚ) * 65535) = ((0 : ℤ) : ℚ) := by norm_num
    rw [h, pyRound_intCast]
    rfl
  have h0y : (pyRound ((((0 : ℚ), (0 : ℚ)) : ℚ × ℚ).2 * 65535)).toNat = 0 := by
    show (pyRound ((0 : ℚ) * 65535)).toNat = 0
    have h : ((0 : ℚ) * 65535) = ((0 : ℤ) : ℚ) := by norm_num
    rw [h, pyRound_intCast]
    rfl
  have hcf : (set_color mirrorOn200 [false] (0, 0)).faulted = true := by
    simp only [set_color, h0x, h0y]
    rfl
  have hb : set_brightness mirrorOff127 [true, false] 1 =
      ⟨{ mirrorOff127 with brightness := some 254 }, [],
       [⟨GChar.brightness, [254]⟩, ⟨GChar.power, [1]⟩], true⟩ := by
    simp only [set_brightness, h254]
    rfl
  have hbf : (set_brightness mirrorOff127 [true, false] 1).faulted = true := by
    rw [hb]
  have hbl : (set_brightness mirrorOff127 [true, false] 1).writes.getLast? =
      some ⟨GChar.power, [1]⟩ := by
    rw [hb]
    rfl
  have hw := setter_atomic_on_failure.2.2 mirrorOff127 [true, false] 1
    ⟨GChar.power, [1]⟩ hbf hbl
  exact ⟨rfl, setter_atomic_on_failure.1 mirrorOff127 [false] true rfl, hcf,
    setter_atomic_on_failure.2.1 mirrorOn200 [false] (0, 0) hcf, hbf, hbl, hw⟩

/-! ### Helper lemmas for the bootstrap decode callbacks -/

theorem LampState_update_power_self {s : LampState} {b : Option Bool}
    (h : s.power = b) : ({ s with power := b } : LampState) = s := by
  cases s
  simp_all

theorem LampState_update_brightness_self {s : LampState} {b : Option ℕ}
    (h : s.brightness = b) : ({ s with brightness := b } : LampState) = s := by
  cases s
  simp_all

theorem LampState_update_color_self {s : LampState} {c : Option (ℕ × ℕ)}
    (h : s.color = c) : ({ s with color := c } : LampState) = s := by
  cases s
  simp_all

theorem applyPower_true {data : List ℕ} {s s2 : LampState}
    (h : applyPower data s = (s2, true)) :
    (data = [0] ∧ s2 = { s with power := some false }) ∨
    (data = [1] ∧ s2 = { s with power := some true }) := by
  revert h
  unfold applyPower
  split
  · rename_i hor
    split
    · rename_i h1
      intro h
      right
      refine ⟨h1, ?_⟩
      have := congrArg Prod.fst h
      simpa using this.symm
    · rename_i h1
      intro h
      left
      have hd0 : data = [0] := by
        rcases hor with h0 | h1'
        · exact h0
        · exact absurd h1' h1
      refine ⟨hd0, ?_⟩
      have := congrArg Prod.fst h
      simpa using this.symm
  · intro h
    have := congrArg Prod.snd h
    simp at this

theorem applyBrightness_true {data : List ℕ} {s s2 : LampState}
    (h : applyBrightness data s = (s2, true)) :
    ∃ b, data = [b] ∧ s2 = { s with brightness := some b } := by
  cases data with
  | nil => simp [applyBrightness] at h
  | cons b t =>
    cases t with
    | nil =>
      refine ⟨b, rfl, ?_⟩
      have := congrArg Prod.fst h
      simpa using this.symm
    | cons c t2 => simp [applyBrightness] at h

theorem applyColor_true {data : List ℕ} {s s2 : LampState}
    (h : applyColor data s = (s2, true)) :
    ∃ b0 b1 b2 b3, data = [b0, b1, b2, b3] ∧
      s2 = { s with color := some (b0 + 256 * b1, b2 + 256 * b3) } := by
  match data with
  | [] => simp [applyColor] at h
  | [b0] => simp [applyColor] at h
  | [b0, b1] => simp [applyColor] at h
  | [b0, b1, b2] => simp [applyColor] at h
  | b0 :: b1 :: b2 :: b3 :: b4 :: t => simp [applyColor] at h
  | [b0, b1, b2, b3] =>
    refine ⟨b0, b1, b2, b3, rfl, ?_⟩
    have := congrArg Prod.fst h
    simpa using this.symm

theorem applyPower_self {s : LampState} {data : List ℕ}
    (h : (data = [0] ∧ s.power = some false) ∨ (data = [1] ∧ s.power = some true)) :
    applyPower data s = (s, true) := by
  rcases h with ⟨hd, hp⟩ | ⟨hd, hp⟩
  · subst hd
    unfold applyPower
    rw [if_pos (Or.inl rfl), if_neg (by decide), LampState_update_power_self hp]
  · subst hd
    unfold applyPower
    rw [if_pos (Or.inr rfl), if_pos rfl, LampState_update_power_self hp]

theorem applyBrightness_self {s : LampState} {b : ℕ}
    (h : s.brightness = some b) : applyBrightness [b] s = (s, true) := by
  show ({ s with brightness := some b }, true) = (s, true)
  rw [LampState_update_brightness_self h]

theorem applyColor_self {s : LampState} {b0 b1 b2 b3 : ℕ}
    (h : s.color = some (b0 + 256 * b1, b2 + 256 * b3)) :
    applyColor [b0, b1, b2, b3] s = (s, true) := by
  show ({ s with color := some (b0 + 256 * b1, b2 + 256 * b3) }, true) = (s, true)
  rw [LampState_update_color_self h]

/-! ### Claim C9: bootstrap subscribe-before-read ordering -/

/-- C9: in the bootstrap trace, for each of power, brightness and color the
`start_notify` on the characteristic precedes the initial read of that
characteristic, and the value stored by a successful bootstrap is exactly
what the notification decode callbacks produce on the read payloads —
re-applying each callback to its read payload on the final mirror is an
identity, so reads and notifications share one decode path per attribute. -/
theorem connect_subscribe_before_read :
    (connectTrace.findIdx (· == Op.startNotify GChar.power) <
      connectTrace.findIdx (· == Op.readChar GChar.power)) ∧
    (connectTrace.findIdx (· == Op.startNotify GChar.brightness) <
      connectTrace.findIdx (· == Op.readChar GChar.brightness)) ∧
    (connectTrace.findIdx (· == Op.startNotify GChar.color) <
      connectTrace.findIdx (· == Op.readChar GChar.color)) ∧
    (∀ reads s s', connectModel reads s = some s' →
      applyPower (reads GChar.power) s' = (s', true) ∧
      applyBrightness (reads GChar.brightness) s' = (s', true) ∧
      applyColor (reads GChar.color) s' = (s', true)) := by
  refine ⟨by decide, by decide, by decide, ?_⟩
  · intro reads s s' h
    unfold connectModel at h
    cases hm : decodeAscii (reads GChar.model) with
    | none =>
      rw [hm] at h
      simp at h
    | some m =>
      rw [hm] at h
      dsimp only at h
      rcases hp : applyPower (reads GChar.power) { s with model := some m } with ⟨s2, okp⟩
      rw [hp] at h
      cases okp with
      | false => simp at h
      | true =>
        dsimp only at h
        rcases hb : applyBrightness (reads GChar.brightness) s2 with ⟨s3, okb⟩
        rw [hb] at h
        cases okb with
        | false => simp at h
        | true =>
          dsimp only at h
          rcases hc : applyColor (reads GChar.color) s3 with ⟨s4, okc⟩
          rw [hc] at h
          cases okc with
          | false => simp at h
          | true =>
            simp at h
            subst h
            obtain ⟨b, hdb, hs3⟩ := applyBrightness_true hb
            obtain ⟨b0, b1, b2, b3, hdc, hs4⟩ := applyColor_true hc
            have hpow := applyPower_true hp
            subst hs4
            subst hs3
            refine ⟨?_, ?_, ?_⟩
            · apply applyPower_self
              rcases hpow with ⟨hd, hs2⟩ | ⟨hd, hs2⟩
              · subst hs2
                exact Or.inl ⟨hd, rfl⟩
              · subst hs2
                exact Or.inr ⟨hd, rfl⟩
            · rw [hdb]
              exact applyBrightness_self rfl
            · rw [hdc]
              exact applyColor_self rfl

/-- Witness for C9: the ordering instance for the power characteristic, and
a concrete bootstrap over `readsSample` whose final mirror absorbs each read
through the shared decode callbacks. -/
theorem connect_subscribe_before_read_witness :
    connectModel readsSample initLampState =
      some ⟨some [72], some true, some 42, some (16, 32)⟩ ∧
    applyPower (readsSample GChar.power)
      (⟨some [72], some true, some 42, some (16, 32)⟩ : LampState) =
      (⟨some [72], some true, some 42, some (16, 32)⟩, true) :=
  ⟨by decide,
   (connect_subscribe_before_read.2.2.2 readsSample initLampState
     ⟨some [72], some true, some 42, some (16, 32)⟩ (by decide)).1⟩

/-! ### Claim C1: color round-trip -/

/-- C1: the color round-trip is broken in the code.  `set_color((0.5, 0.5))`
caches the quantized device-scale pair `(32768, 32768)`, but `get_color`
multiplies the cached device-scale integers by `0xFFFF` again instead of
normalizing, returning `(2147450880, 2147450880)` — off by far more than
the claimed `1/65535` per axis. -/
theorem color_round_trip_bug :
    pyRound ((1 : ℚ)/2 * 65535) = 32768 ∧
    (set_color mirrorOn200 [] (1/2, 1/2)).state.color = some (32768, 32768) ∧
    get_color (set_color mirrorOn200 [] (1/2, 1/2)).state =
      GetResult.value (2147450880, 2147450880) ∧
    ¬((2147450880 : ℚ) - 1/2 ≤ 1/65535) := by
  have hq : pyRound ((1 : ℚ)/2 * 65535) = 32768 := by
    have h : ((1 : ℚ)/2 * 65535) = ((32767 : ℤ) : ℚ) + 1/2 := by norm_num
    rw [h, pyRound_half, if_neg (by decide)]
    decide
  have hx : (pyRound ((((1 : ℚ)/2, (1 : ℚ)/2) : ℚ × ℚ).1 * 65535)).toNat = 32768 := by
    show (pyRound ((1 : ℚ)/2 * 65535)).toNat = 32768
    rw [hq]
    rfl
  have hy : (pyRound ((((1 : ℚ)/2, (1 : ℚ)/2) : ℚ × ℚ).2 * 65535)).toNat = 32768 := by
    show (pyRound ((1 : ℚ)/2 * 65535)).toNat = 32768
    rw [hq]
    rfl
  have hsc : set_color mirrorOn200 [] (1/2, 1/2) =
      ⟨{ mirrorOn200 with color := some (32768, 32768) }, [],
       [⟨GChar.color, [32768 % 256, 32768 / 256, 32768 % 256, 32768 / 256]⟩], false⟩ := by
    simp only [set_color, hx, hy]
    rfl
  have hgc : pyRound (((32768 : ℕ) : ℚ) * 65535) = 2147450880 := by
    have h : (((32768 : ℕ) : ℚ) * 65535) = ((2147450880 : ℤ) : ℚ) := by norm_num
    rw [h, pyRound_intCast]
  refine ⟨hq, ?_, ?_, by norm_num⟩
  · rw [hsc]
  · rw [hsc]
    show GetResult.value (pyRound (((32768 : ℕ) : ℚ) * 65535),
      pyRound (((32768 : ℕ) : ℚ) * 65535)) =
      GetResult.value ((2147450880 : ℤ), (2147450880 : ℤ))
    rw [hgc]

/-! ### Claim C10: temperature clamping -/

/-- C10: for every input `t`, `set_temperature` writes a two-byte
little-endian code in the raw range `[153, 454]`; inputs at or below `0`
produce exactly `153`, inputs at or above `1` produce exactly `454`. -/
theorem set_temperature_clamps (s : LampState) (t : ℚ) :
    153 ≤ tempCode t ∧ tempCode t ≤ 454 ∧
    (t ≤ 0 → tempCode t = 153) ∧
    (1 ≤ t → tempCode t = 454) ∧
    (set_temperature s [] t).writes =
      [⟨GChar.temperature, [(tempCode t).toNat % 256, (tempCode t).toNat / 256]⟩] := by
  have hnn : (0 : ℚ) ≤ max t 0 * 301 := by
    have := le_max_right t 0
    nlinarith
  have hp : 0 ≤ pyRound ((t ⊔ 0) * 301) := pyRound_nonneg hnn
  refine ⟨?_, ?_, ?_, ?_, rfl⟩
  · show 153 ≤ min (pyRound ((t ⊔ 0) * 301) + 153) 454
    exact le_min (by omega) (by norm_num)
  · show min (pyRound ((t ⊔ 0) * 301) + 153) 454 ≤ 454
    exact min_le_right _ _
  · intro h
    show min (pyRound ((t ⊔ 0) * 301) + 153) 454 = 153
    have hmax : t ⊔ 0 = 0 := max_eq_right h
    rw [hmax]
    have h0 : ((0:ℚ) * 301) = ((0 : ℤ) : ℚ) := by norm_num
    rw [h0, pyRound_intCast]
    norm_num
  · intro h
    show min (pyRound ((t ⊔ 0) * 301) + 153) 454 = 454
    have hmax : t ⊔ 0 = t := max_eq_left (le_trans zero_le_one h)
    rw [hmax]
    have hfl : (301 : ℤ) ≤ ⌊t * 301⌋ := by
      apply Int.le_floor.mpr
      push_cast
      nlinarith
    have h2 := floor_le_pyRound (t * 301)
    exact min_eq_right (by omega)

/-- Witness for C10 at `t = -1` (clamped to 153) and `t = 2` (clamped
to 454). -/
theorem set_temperature_clamps_witness :
    ((-1 : ℚ) ≤ 0) ∧ tempCode (-1) = 153 ∧
    ((1 : ℚ) ≤ 2) ∧ tempCode 2 = 454 :=
  ⟨by norm_num,
   (set_temperature_clamps initLampState (-1)).2.2.1 (by norm_num),
   by norm_num,
   (set_temperature_clamps initLampState 2).2.2.2.1 (by norm_num)⟩

end Hueble
